import Mathlib

/-!
# caffe/syncedmem.hpp

A shallow embedding of `include/caffe/syncedmem.hpp`: the host allocator pair
`CaffeMallocHost` / `CaffeFreeHost` and the class `SyncedMemory` (its two
constructors and the inline getters `head()` and `size()`).

Conventions
* a `void*` is a natural number address, `NULL` is `0`;
* a `size_t` is a natural number (no arithmetic is done on sizes here);
* the build flag `CPU_ONLY` is a boolean argument (`true` when the flag is
  defined, so that the `#ifndef CPU_ONLY` regions are compiled out);
* everything the header takes from outside (`Caffe::mode()`, `malloc`,
  `cudaMallocHost`, `cudaFreeHost`, ...) is a field of `Runtime`;
* an out-parameter (`void** ptr`, `bool* use_cuda`) is an argument holding the
  value stored before the call and a field of the result holding the value
  stored when control leaves the function;
* every function reports how control leaves it (`Status`) and the library
  calls it made, in order (`Call`).
-/

namespace caffe

/-- A `void*`: an address. -/
abbrev Ptr := Nat

/-- The null pointer. -/
def NULL : Ptr := 0

/-- The CUDA status code `cudaError_t`. -/
abbrev cudaError_t := Nat

/-- The status code `cudaSuccess`. -/
def cudaSuccess : cudaError_t := 0

/-- The enum `Caffe::Brew { CPU, GPU }`, the value of `Caffe::mode()`. -/
inductive Brew
  | CPU
  | GPU
  deriving DecidableEq, Repr

/-- A call into the C library or the CUDA runtime, as observed from outside. -/
inductive Call
  | cudaMallocHost (size : Nat)
  | malloc (size : Nat)
  | cudaFreeHost (ptr : Ptr)
  | free (ptr : Ptr)
  | cudaGetDevice
  | cudaMalloc (size : Nat)
  | cudaMemcpy (dst src : Ptr) (size : Nat)
  | cudaMemcpyAsync (dst src : Ptr) (size : Nat) (stream : Nat)
  | memset (dst : Ptr) (size : Nat)
  deriving DecidableEq, Repr

/-- The collaborators of the header: the process-wide mode and the answers of
the allocators. `cudaMallocHost old size` is the status code together with the
value left in `*ptr` (which held `old`), and likewise `cudaMalloc`;
`malloc size` is the pointer returned, `NULL` on exhaustion; `cudaGetDevice`
is the ordinal of the current device. -/
structure Runtime where
  mode : Brew
  cudaMallocHost : Ptr → Nat → cudaError_t × Ptr
  malloc : Nat → Ptr
  cudaFreeHost : Ptr → cudaError_t
  cudaGetDevice : Int
  cudaMalloc : Ptr → Nat → cudaError_t × Ptr

/-- How control leaves a function: by returning, or through a failed fatal
check, which ends the process. -/
inductive Status
  | returned
  | fatal
  deriving DecidableEq, Repr

/-- Modelled from the spec: the body of `CUDA_CHECK` (caffe/common.hpp is not
part of the sources). A failure of the accelerator runtime is a fatal
condition: the check passes exactly on `cudaSuccess`. -/
def CUDA_CHECK (error : cudaError_t) : Status :=
  if error = cudaSuccess then Status.returned else Status.fatal

/-- Modelled from the spec: the body of `CHECK` (glog, reached through
caffe/common.hpp, is not part of the sources). `CHECK(p)` on a pointer fails
fatally exactly when the pointer is null. -/
def CHECK (p : Ptr) : Status :=
  if p ≠ NULL then Status.returned else Status.fatal

/-- What `CaffeMallocHost` leaves behind: exit status, the values stored in
`*ptr` and `*use_cuda`, and the allocator calls made. -/
structure HostAlloc where
  status : Status
  ptr : Ptr
  use_cuda : Bool
  calls : List Call
  deriving DecidableEq, Repr

/-- The function `CaffeMallocHost(void** ptr, size_t size, bool* use_cuda)`. -/
def CaffeMallocHost (CPU_ONLY : Bool) (rt : Runtime) (ptr : Ptr) (size : Nat)
    (use_cuda : Bool) : HostAlloc :=
  -- #ifndef CPU_ONLY / if (Caffe::mode() == Caffe::GPU)
  if CPU_ONLY = false ∧ rt.mode = Brew.GPU then
    -- CUDA_CHECK(cudaMallocHost(ptr, size));
    let r := rt.cudaMallocHost ptr size
    match CUDA_CHECK r.1 with
    | Status.fatal =>
        { status := Status.fatal, ptr := r.2, use_cuda := use_cuda,
          calls := [Call.cudaMallocHost size] }
    | Status.returned =>
        -- *use_cuda = true; return;
        { status := Status.returned, ptr := r.2, use_cuda := true,
          calls := [Call.cudaMallocHost size] }
  else
    -- *ptr = malloc(size); *use_cuda = false;
    let p := rt.malloc size
    -- CHECK(*ptr) << "host allocation of size " << size << " failed";
    { status := CHECK p, ptr := p, use_cuda := false, calls := [Call.malloc size] }

/-- What `CaffeFreeHost` leaves behind: exit status and the deallocator calls
made. -/
structure HostFree where
  status : Status
  calls : List Call
  deriving DecidableEq, Repr

/-- The function `CaffeFreeHost(void* ptr, bool use_cuda)`. -/
def CaffeFreeHost (CPU_ONLY : Bool) (rt : Runtime) (ptr : Ptr) (use_cuda : Bool) :
    HostFree :=
  -- #ifndef CPU_ONLY / if (use_cuda)
  if CPU_ONLY = false ∧ use_cuda = true then
    -- CUDA_CHECK(cudaFreeHost(ptr)); return;
    { status := CUDA_CHECK (rt.cudaFreeHost ptr), calls := [Call.cudaFreeHost ptr] }
  else
    -- free(ptr);
    { status := Status.returned, calls := [Call.free ptr] }

/-- The enum `SyncedMemory::SyncedHead`. -/
inductive SyncedHead
  | UNINITIALIZED
  | HEAD_AT_CPU
  | HEAD_AT_GPU
  | SYNCED
  deriving DecidableEq, Repr

/-- The data members of `class SyncedMemory`. -/
structure SyncedMemory where
  cpu_ptr_ : Ptr
  gpu_ptr_ : Ptr
  size_ : Nat
  head_ : SyncedHead
  own_cpu_data_ : Bool
  cpu_malloc_use_cuda_ : Bool
  own_gpu_data_ : Bool
  gpu_device_ : Int
  deriving DecidableEq, Repr

/-- The default constructor `SyncedMemory()`. -/
def SyncedMemory_default : SyncedMemory :=
  { cpu_ptr_ := NULL, gpu_ptr_ := NULL, size_ := 0, head_ := SyncedHead.UNINITIALIZED,
    own_cpu_data_ := false, cpu_malloc_use_cuda_ := false, own_gpu_data_ := false,
    gpu_device_ := -1 }

/-- The constructor `explicit SyncedMemory(size_t size)`. -/
def SyncedMemory_size (size : Nat) : SyncedMemory :=
  { cpu_ptr_ := NULL, gpu_ptr_ := NULL, size_ := size, head_ := SyncedHead.UNINITIALIZED,
    own_cpu_data_ := false, cpu_malloc_use_cuda_ := false, own_gpu_data_ := false,
    gpu_device_ := -1 }

/-- The getter `SyncedHead head() { return head_; }`. -/
def SyncedMemory.head (m : SyncedMemory) : SyncedHead := m.head_

/-- The getter `size_t size() { return size_; }`. -/
def SyncedMemory.size (m : SyncedMemory) : Nat := m.size_

/-! ## The accessors whose bodies are not in the header

`to_cpu`, `cpu_data` and `async_gpu_push` are declared in the header and
defined in a translation unit that is not part of the sources. They are
modelled from the specification (sections 4.2 and 9), on top of the
`CaffeMallocHost` above. Host and device memory are two separate byte-addressed stores. -/

/-- The two memories and the calls made so far. -/
structure World where
  host : Nat → Nat
  device : Nat → Nat
  calls : List Call

/-- What an operation on a buffer leaves behind: exit status, the data members
and the world. -/
structure Access where
  status : Status
  mem : SyncedMemory
  world : World

/-- Modelled from the spec: "allocate device buffer", missing with the body of
`async_gpu_push`. The device ordinal is established on this first device-side
allocation; allocation failure is fatal; on success the buffer owns the
pointer. -/
def acquire_device (rt : Runtime) (m : SyncedMemory) (w : World) : Access :=
  let m1 := { m with gpu_device_ := rt.cudaGetDevice }
  let r := rt.cudaMalloc m.gpu_ptr_ m.size_
  let m2 := { m1 with gpu_ptr_ := r.2 }
  let w1 := { w with calls := w.calls ++ [Call.cudaGetDevice, Call.cudaMalloc m.size_] }
  match CUDA_CHECK r.1 with
  | Status.fatal => { status := Status.fatal, mem := m2, world := w1 }
  | Status.returned =>
      { status := Status.returned, mem := { m2 with own_gpu_data_ := true }, world := w1 }

/-- Modelled from the spec: the body of `SyncedMemory::async_gpu_push` is
missing (the member exists only when `CPU_ONLY` is not defined).
Preconditions: an accelerator context is active and the host copy is
authoritative, otherwise fatal. Effect: allocate the device buffer if absent,
issue a non-blocking copy on the caller's stream (recorded as a call; the
device bytes are not yet written when the call returns) and become SYNCED. -/
def async_gpu_push (rt : Runtime) (stream : Nat) (m : SyncedMemory) (w : World) : Access :=
  if rt.mode ≠ Brew.GPU then { status := Status.fatal, mem := m, world := w }
  else if m.head_ ≠ SyncedHead.HEAD_AT_CPU then { status := Status.fatal, mem := m, world := w }
  else
    let a := if m.gpu_ptr_ = NULL then acquire_device rt m w
             else { status := Status.returned, mem := m, world := w }
    match a.status with
    | Status.fatal => a
    | Status.returned =>
        { status := Status.returned
          mem := { a.mem with head_ := SyncedHead.SYNCED }
          world := { a.world with
            calls := a.world.calls ++
              [Call.cudaMemcpyAsync a.mem.gpu_ptr_ a.mem.cpu_ptr_ a.mem.size_ stream] } }

/-! ## Sample collaborators, for evaluating the functions -/

/-- A runtime in GPU mode whose allocators all succeed. -/
def rt_gpu_ok : Runtime :=
  { mode := Brew.GPU
    cudaMallocHost := fun _ _ => (cudaSuccess, 4096)
    malloc := fun _ => 8192
    cudaFreeHost := fun _ => cudaSuccess
    cudaGetDevice := 0
    cudaMalloc := fun _ _ => (cudaSuccess, 512) }

/-- A runtime in GPU mode whose pinned allocation fails with code 2
(`cudaErrorMemoryAllocation`) and leaves `*ptr` alone. -/
def rt_gpu_fail : Runtime :=
  { mode := Brew.GPU
    cudaMallocHost := fun old _ => (2, old)
    malloc := fun _ => 8192
    cudaFreeHost := fun _ => cudaSuccess
    cudaGetDevice := 0
    cudaMalloc := fun _ _ => (2, NULL) }

/-- A runtime in CPU mode whose `malloc` succeeds. -/
def rt_cpu_ok : Runtime :=
  { mode := Brew.CPU
    cudaMallocHost := fun _ _ => (cudaSuccess, 4096)
    malloc := fun _ => 8192
    cudaFreeHost := fun _ => cudaSuccess
    cudaGetDevice := 0
    cudaMalloc := fun _ _ => (cudaSuccess, 512) }

/-- A runtime in CPU mode whose `malloc` returns `NULL` for every size. -/
def rt_cpu_null : Runtime :=
  { mode := Brew.CPU
    cudaMallocHost := fun _ _ => (cudaSuccess, 4096)
    malloc := fun _ => NULL
    cudaFreeHost := fun _ => cudaSuccess
    cudaGetDevice := 0
    cudaMalloc := fun _ _ => (cudaSuccess, 512) }

/-- A world whose device memory holds the byte `a % 251` at address `a` and
whose host memory is all `255`. -/
def world0 : World :=
  { host := fun _ => 255, device := fun a => a % 251, calls := [] }

/-- A buffer of four bytes whose device copy, at address 512, is authoritative
and whose host side has not been allocated. -/
def mem_at_gpu : SyncedMemory :=
  { cpu_ptr_ := NULL, gpu_ptr_ := 512, size_ := 4, head_ := SyncedHead.HEAD_AT_GPU,
    own_cpu_data_ := false, cpu_malloc_use_cuda_ := false, own_gpu_data_ := true,
    gpu_device_ := 0 }

/-! ## Shared lemmas -/

theorem CUDA_CHECK_returned_iff (e : cudaError_t) :
    CUDA_CHECK e = Status.returned ↔ e = cudaSuccess := by
  unfold CUDA_CHECK
  by_cases h : e = cudaSuccess <;> simp [h]

theorem CUDA_CHECK_fatal_iff (e : cudaError_t) :
    CUDA_CHECK e = Status.fatal ↔ e ≠ cudaSuccess := by
  unfold CUDA_CHECK
  by_cases h : e = cudaSuccess <;> simp [h]

theorem CHECK_returned_iff (p : Ptr) : CHECK p = Status.returned ↔ p ≠ NULL := by
  unfold CHECK
  by_cases h : p = NULL <;> simp [h]

theorem CHECK_fatal_iff (p : Ptr) : CHECK p = Status.fatal ↔ p = NULL := by
  unfold CHECK
  by_cases h : p = NULL <;> simp [h]

/-- On the pinned path the result of `CaffeMallocHost` is determined by the
answer of `cudaMallocHost`. -/
theorem CaffeMallocHost_gpu (rt : Runtime) (ptr size : Nat) (use_cuda : Bool)
    (hm : rt.mode = Brew.GPU) :
    CaffeMallocHost false rt ptr size use_cuda =
      if (rt.cudaMallocHost ptr size).1 = cudaSuccess then
        { status := Status.returned, ptr := (rt.cudaMallocHost ptr size).2, use_cuda := true,
          calls := [Call.cudaMallocHost size] }
      else
        { status := Status.fatal, ptr := (rt.cudaMallocHost ptr size).2, use_cuda := use_cuda,
          calls := [Call.cudaMallocHost size] } := by
  unfold CaffeMallocHost CUDA_CHECK
  by_cases h : (rt.cudaMallocHost ptr size).1 = cudaSuccess <;> simp [hm, h]

/-- Off the pinned path the result of `CaffeMallocHost` is determined by the
answer of `malloc`. -/
theorem CaffeMallocHost_std (CPU_ONLY : Bool) (rt : Runtime) (ptr size : Nat) (use_cuda : Bool)
    (h : ¬ (CPU_ONLY = false ∧ rt.mode = Brew.GPU)) :
    CaffeMallocHost CPU_ONLY rt ptr size use_cuda =
      { status := CHECK (rt.malloc size), ptr := rt.malloc size, use_cuda := false,
        calls := [Call.malloc size] } := by
  unfold CaffeMallocHost
  rw [if_neg h]

/-- C1: for every size `n`, the buffer built by `SyncedMemory(n)` has
`head() == UNINITIALIZED`, a null `cpu_ptr_`, a null `gpu_ptr_` and
`size() == n`. -/
theorem SyncedMemory_size_initial (n : Nat) :
    (SyncedMemory_size n).head = SyncedHead.UNINITIALIZED ∧
    (SyncedMemory_size n).cpu_ptr_ = NULL ∧
    (SyncedMemory_size n).gpu_ptr_ = NULL ∧
    (SyncedMemory_size n).size = n :=
  ⟨rfl, rfl, rfl, rfl⟩

/-- C9: the default-constructed buffer has `size() == 0`,
`head() == UNINITIALIZED` and no pointers, and agrees with `SyncedMemory(0)`
as a whole and on each data member: both pointers, size, state, both ownership
flags, the pinned-strategy flag and the device ordinal. -/
theorem SyncedMemory_default_eq_size_zero :
    SyncedMemory_default.size = 0 ∧
    SyncedMemory_default.head = SyncedHead.UNINITIALIZED ∧
    SyncedMemory_default.cpu_ptr_ = NULL ∧
    SyncedMemory_default.gpu_ptr_ = NULL ∧
    SyncedMemory_default = SyncedMemory_size 0 ∧
    SyncedMemory_default.cpu_ptr_ = (SyncedMemory_size 0).cpu_ptr_ ∧
    SyncedMemory_default.gpu_ptr_ = (SyncedMemory_size 0).gpu_ptr_ ∧
    SyncedMemory_default.size_ = (SyncedMemory_size 0).size_ ∧
    SyncedMemory_default.head_ = (SyncedMemory_size 0).head_ ∧
    SyncedMemory_default.own_cpu_data_ = (SyncedMemory_size 0).own_cpu_data_ ∧
    SyncedMemory_default.own_gpu_data_ = (SyncedMemory_size 0).own_gpu_data_ ∧
    SyncedMemory_default.cpu_malloc_use_cuda_ = (SyncedMemory_size 0).cpu_malloc_use_cuda_ ∧
    SyncedMemory_default.gpu_device_ = (SyncedMemory_size 0).gpu_device_ :=
  ⟨rfl, rfl, rfl, rfl, rfl, rfl, rfl, rfl, rfl, rfl, rfl, rfl, rfl⟩

/-! ## The host allocator -/

/-- C4: whenever `CaffeMallocHost` returns normally, the flag it stores is
true exactly when the pointer came from `cudaMallocHost`; that is the case
exactly when `CPU_ONLY` is not defined and `Caffe::mode()` is GPU, and then the
pointer is the one `cudaMallocHost` stored; in every other case the only call
is `malloc`, the pointer is the one `malloc` returned and the flag is false. -/
theorem CaffeMallocHost_flag_records_strategy (CPU_ONLY : Bool) (rt : Runtime)
    (ptr size : Nat) (use_cuda : Bool)
    (h : (CaffeMallocHost CPU_ONLY rt ptr size use_cuda).status = Status.returned) :
    ((CaffeMallocHost CPU_ONLY rt ptr size use_cuda).use_cuda = true ↔
      (CaffeMallocHost CPU_ONLY rt ptr size use_cuda).calls = [Call.cudaMallocHost size]) ∧
    ((CaffeMallocHost CPU_ONLY rt ptr size use_cuda).calls = [Call.cudaMallocHost size] ↔
      (CPU_ONLY = false ∧ rt.mode = Brew.GPU)) ∧
    ((CPU_ONLY = false ∧ rt.mode = Brew.GPU) →
      (CaffeMallocHost CPU_ONLY rt ptr size use_cuda).ptr = (rt.cudaMallocHost ptr size).2) ∧
    (¬ (CPU_ONLY = false ∧ rt.mode = Brew.GPU) →
      (CaffeMallocHost CPU_ONLY rt ptr size use_cuda).calls = [Call.malloc size] ∧
      (CaffeMallocHost CPU_ONLY rt ptr size use_cuda).ptr = rt.malloc size ∧
      (CaffeMallocHost CPU_ONLY rt ptr size use_cuda).use_cuda = false) := by
  by_cases hg : CPU_ONLY = false ∧ rt.mode = Brew.GPU
  · obtain ⟨hc, hm⟩ := hg
    subst hc
    rw [CaffeMallocHost_gpu rt ptr size use_cuda hm] at h ⊢
    by_cases he : (rt.cudaMallocHost ptr size).1 = cudaSuccess
    · simp [he, hm]
    · simp [he] at h
  · rw [CaffeMallocHost_std CPU_ONLY rt ptr size use_cuda hg]
    simp [hg]

/-- C4, evaluated in a GPU-mode build whose pinned allocation succeeds. -/
theorem CaffeMallocHost_flag_records_strategy_witness :
    (CaffeMallocHost false rt_gpu_ok 0 64 false).status = Status.returned ∧
    (((CaffeMallocHost false rt_gpu_ok 0 64 false).use_cuda = true ↔
      (CaffeMallocHost false rt_gpu_ok 0 64 false).calls = [Call.cudaMallocHost 64]) ∧
    ((CaffeMallocHost false rt_gpu_ok 0 64 false).calls = [Call.cudaMallocHost 64] ↔
      (false = false ∧ rt_gpu_ok.mode = Brew.GPU)) ∧
    ((false = false ∧ rt_gpu_ok.mode = Brew.GPU) →
      (CaffeMallocHost false rt_gpu_ok 0 64 false).ptr = (rt_gpu_ok.cudaMallocHost 0 64).2) ∧
    (¬ (false = false ∧ rt_gpu_ok.mode = Brew.GPU) →
      (CaffeMallocHost false rt_gpu_ok 0 64 false).calls = [Call.malloc 64] ∧
      (CaffeMallocHost false rt_gpu_ok 0 64 false).ptr = rt_gpu_ok.malloc 64 ∧
      (CaffeMallocHost false rt_gpu_ok 0 64 false).use_cuda = false)) :=
  ⟨by decide, CaffeMallocHost_flag_records_strategy false rt_gpu_ok 0 64 false (by decide)⟩

/-- C5: if `CaffeMallocHost` returned `(ptr, flag)`, then `CaffeFreeHost(ptr,
flag)` in the same build makes exactly one call: `cudaFreeHost(ptr)` when the
pointer came from `cudaMallocHost`, `free(ptr)` when it came from `malloc`; and
the call made is the same under every runtime at release time, whatever its
mode. -/
theorem CaffeFreeHost_matches_CaffeMallocHost (CPU_ONLY : Bool) (acq rel : Runtime)
    (ptr size : Nat) (use_cuda : Bool)
    (h : (CaffeMallocHost CPU_ONLY acq ptr size use_cuda).status = Status.returned) :
    ((CaffeMallocHost CPU_ONLY acq ptr size use_cuda).calls = [Call.cudaMallocHost size] ∨
      (CaffeMallocHost CPU_ONLY acq ptr size use_cuda).calls = [Call.malloc size]) ∧
    ((CaffeMallocHost CPU_ONLY acq ptr size use_cuda).calls = [Call.cudaMallocHost size] →
      (CaffeFreeHost CPU_ONLY rel (CaffeMallocHost CPU_ONLY acq ptr size use_cuda).ptr
          (CaffeMallocHost CPU_ONLY acq ptr size use_cuda).use_cuda).calls =
        [Call.cudaFreeHost (CaffeMallocHost CPU_ONLY acq ptr size use_cuda).ptr]) ∧
    ((CaffeMallocHost CPU_ONLY acq ptr size use_cuda).calls = [Call.malloc size] →
      (CaffeFreeHost CPU_ONLY rel (CaffeMallocHost CPU_ONLY acq ptr size use_cuda).ptr
          (CaffeMallocHost CPU_ONLY acq ptr size use_cuda).use_cuda).calls =
        [Call.free (CaffeMallocHost CPU_ONLY acq ptr size use_cuda).ptr]) ∧
    (∀ rel2 : Runtime,
      (CaffeFreeHost CPU_ONLY rel2 (CaffeMallocHost CPU_ONLY acq ptr size use_cuda).ptr
          (CaffeMallocHost CPU_ONLY acq ptr size use_cuda).use_cuda).calls =
      (CaffeFreeHost CPU_ONLY rel (CaffeMallocHost CPU_ONLY acq ptr size use_cuda).ptr
          (CaffeMallocHost CPU_ONLY acq ptr size use_cuda).use_cuda).calls) := by
  by_cases hg : CPU_ONLY = false ∧ acq.mode = Brew.GPU
  · obtain ⟨hc, hm⟩ := hg
    subst hc
    rw [CaffeMallocHost_gpu acq ptr size use_cuda hm] at h ⊢
    by_cases he : (acq.cudaMallocHost ptr size).1 = cudaSuccess
    · simp [he, CaffeFreeHost]
    · simp [he] at h
  · rw [CaffeMallocHost_std CPU_ONLY acq ptr size use_cuda hg]
    simp [CaffeFreeHost]

/-- C5, evaluated for a pinned acquisition in GPU mode released in CPU mode. -/
theorem CaffeFreeHost_matches_CaffeMallocHost_witness :
    (CaffeMallocHost false rt_gpu_ok 0 64 false).status = Status.returned ∧
    (CaffeMallocHost false rt_gpu_ok 0 64 false).calls = [Call.cudaMallocHost 64] ∧
    (CaffeFreeHost false rt_cpu_ok (CaffeMallocHost false rt_gpu_ok 0 64 false).ptr
        (CaffeMallocHost false rt_gpu_ok 0 64 false).use_cuda).calls =
      [Call.cudaFreeHost (CaffeMallocHost false rt_gpu_ok 0 64 false).ptr] :=
  ⟨by decide, by decide,
    (CaffeFreeHost_matches_CaffeMallocHost false rt_gpu_ok rt_cpu_ok 0 64 false
      (by decide)).2.1 (by decide)⟩

/-- C6, as stated, fails: in a `CPU_ONLY` build the flag is not looked at, so
`CaffeFreeHost(ptr, true)` calls `free(ptr)` and never `cudaFreeHost`. -/
theorem CaffeFreeHost_cpu_only_ignores_flag :
    (CaffeFreeHost true rt_cpu_ok 8192 true).calls = [Call.free 8192] ∧
    ¬ (∀ (CPU_ONLY : Bool) (rt : Runtime) (ptr : Ptr) (use_cuda : Bool),
        (use_cuda = true →
          (CaffeFreeHost CPU_ONLY rt ptr use_cuda).calls = [Call.cudaFreeHost ptr]) ∧
        (use_cuda = false →
          (CaffeFreeHost CPU_ONLY rt ptr use_cuda).calls = [Call.free ptr])) := by
  refine ⟨by decide, ?_⟩
  intro hall
  have h := (hall true rt_cpu_ok 8192 true).1 rfl
  revert h
  decide

/-- C6, amended: when `CPU_ONLY` is not defined, `CaffeFreeHost(ptr, use_cuda)`
makes exactly one call, `cudaFreeHost(ptr)` when `use_cuda` is true and
`free(ptr)` when it is false; when `CPU_ONLY` is defined it makes exactly one
call, `free(ptr)`, whatever the flag. -/
theorem CaffeFreeHost_matching_strategy (CPU_ONLY : Bool) (rt : Runtime) (ptr : Ptr)
    (use_cuda : Bool) :
    (CPU_ONLY = false → use_cuda = true →
      (CaffeFreeHost CPU_ONLY rt ptr use_cuda).calls = [Call.cudaFreeHost ptr]) ∧
    (CPU_ONLY = false → use_cuda = false →
      (CaffeFreeHost CPU_ONLY rt ptr use_cuda).calls = [Call.free ptr]) ∧
    (CPU_ONLY = true →
      (CaffeFreeHost CPU_ONLY rt ptr use_cuda).calls = [Call.free ptr]) := by
  refine ⟨?_, ?_, ?_⟩
  · intro hc hu
    simp [CaffeFreeHost, hc, hu]
  · intro hc hu
    simp [CaffeFreeHost, hc, hu]
  · intro hc
    simp [CaffeFreeHost, hc]

/-- C6 amended, evaluated on the three cases. -/
theorem CaffeFreeHost_matching_strategy_witness :
    (CaffeFreeHost false rt_gpu_ok 4096 true).calls = [Call.cudaFreeHost 4096] ∧
    (CaffeFreeHost false rt_gpu_ok 8192 false).calls = [Call.free 8192] ∧
    (CaffeFreeHost true rt_cpu_ok 8192 true).calls = [Call.free 8192] :=
  ⟨(CaffeFreeHost_matching_strategy false rt_gpu_ok 4096 true).1 rfl rfl,
   (CaffeFreeHost_matching_strategy false rt_gpu_ok 8192 false).2.1 rfl rfl,
   (CaffeFreeHost_matching_strategy true rt_cpu_ok 8192 true).2.2 rfl⟩

/-- C7: when `CPU_ONLY` is not defined and `Caffe::mode()` is GPU, a
`cudaMallocHost` that reports an error makes `CaffeMallocHost` end fatally;
the only call made is `cudaMallocHost`, `malloc` is not called for any size,
and the call does not return normally with the flag false. -/
theorem CaffeMallocHost_no_silent_fallback (CPU_ONLY : Bool) (rt : Runtime)
    (ptr size : Nat) (use_cuda : Bool)
    (hc : CPU_ONLY = false) (hm : rt.mode = Brew.GPU)
    (he : (rt.cudaMallocHost ptr size).1 ≠ cudaSuccess) :
    (CaffeMallocHost CPU_ONLY rt ptr size use_cuda).status = Status.fatal ∧
    (CaffeMallocHost CPU_ONLY rt ptr size use_cuda).calls = [Call.cudaMallocHost size] ∧
    (∀ n : Nat, Call.malloc n ∉ (CaffeMallocHost CPU_ONLY rt ptr size use_cuda).calls) ∧
    ¬ ((CaffeMallocHost CPU_ONLY rt ptr size use_cuda).status = Status.returned ∧
        (CaffeMallocHost CPU_ONLY rt ptr size use_cuda).use_cuda = false) := by
  subst hc
  rw [CaffeMallocHost_gpu rt ptr size use_cuda hm]
  simp [he]

/-- C7, evaluated in a GPU-mode build whose pinned allocation fails. -/
theorem CaffeMallocHost_no_silent_fallback_witness :
    (false = false ∧ rt_gpu_fail.mode = Brew.GPU ∧
      (rt_gpu_fail.cudaMallocHost 0 64).1 ≠ cudaSuccess) ∧
    ((CaffeMallocHost false rt_gpu_fail 0 64 false).status = Status.fatal ∧
    (CaffeMallocHost false rt_gpu_fail 0 64 false).calls = [Call.cudaMallocHost 64] ∧
    (∀ n : Nat, Call.malloc n ∉ (CaffeMallocHost false rt_gpu_fail 0 64 false).calls) ∧
    ¬ ((CaffeMallocHost false rt_gpu_fail 0 64 false).status = Status.returned ∧
        (CaffeMallocHost false rt_gpu_fail 0 64 false).use_cuda = false)) :=
  ⟨⟨rfl, rfl, by decide⟩,
   CaffeMallocHost_no_silent_fallback false rt_gpu_fail 0 64 false rfl rfl (by decide)⟩

/-- C8: in a `CPU_ONLY` build, or when `Caffe::mode()` is not GPU, for every
non-zero size `CaffeMallocHost` makes exactly the call `malloc(size)`, ends
fatally when `malloc` returned null and returns otherwise; whenever it returns
normally the pointer stored is non-null and is the one `malloc` returned. -/
theorem CaffeMallocHost_standard_path (CPU_ONLY : Bool) (rt : Runtime)
    (ptr size : Nat) (use_cuda : Bool)
    (hctx : CPU_ONLY = true ∨ rt.mode ≠ Brew.GPU) (_hsize : size ≠ 0) :
    (CaffeMallocHost CPU_ONLY rt ptr size use_cuda).calls = [Call.malloc size] ∧
    (rt.malloc size = NULL →
      (CaffeMallocHost CPU_ONLY rt ptr size use_cuda).status = Status.fatal) ∧
    (rt.malloc size ≠ NULL →
      (CaffeMallocHost CPU_ONLY rt ptr size use_cuda).status = Status.returned) ∧
    ((CaffeMallocHost CPU_ONLY rt ptr size use_cuda).status = Status.returned →
      (CaffeMallocHost CPU_ONLY rt ptr size use_cuda).ptr ≠ NULL ∧
      (CaffeMallocHost CPU_ONLY rt ptr size use_cuda).ptr = rt.malloc size) := by
  have hg : ¬ (CPU_ONLY = false ∧ rt.mode = Brew.GPU) := by
    rintro ⟨h1, h2⟩
    rcases hctx with h | h
    · simp [h1] at h
    · exact h h2
  rw [CaffeMallocHost_std CPU_ONLY rt ptr size use_cuda hg]
  refine ⟨rfl, ?_, ?_, ?_⟩
  · intro h
    exact (CHECK_fatal_iff _).mpr h
  · intro h
    exact (CHECK_returned_iff _).mpr h
  · intro h
    exact ⟨(CHECK_returned_iff _).mp h, rfl⟩

/-- C8, evaluated in CPU mode with a `malloc` that succeeds. -/
theorem CaffeMallocHost_standard_path_witness :
    ((false = true ∨ rt_cpu_ok.mode ≠ Brew.GPU) ∧ 1024 ≠ 0) ∧
    ((CaffeMallocHost false rt_cpu_ok 0 1024 true).calls = [Call.malloc 1024] ∧
    (rt_cpu_ok.malloc 1024 = NULL →
      (CaffeMallocHost false rt_cpu_ok 0 1024 true).status = Status.fatal) ∧
    (rt_cpu_ok.malloc 1024 ≠ NULL →
      (CaffeMallocHost false rt_cpu_ok 0 1024 true).status = Status.returned) ∧
    ((CaffeMallocHost false rt_cpu_ok 0 1024 true).status = Status.returned →
      (CaffeMallocHost false rt_cpu_ok 0 1024 true).ptr ≠ NULL ∧
      (CaffeMallocHost false rt_cpu_ok 0 1024 true).ptr = rt_cpu_ok.malloc 1024)) :=
  ⟨⟨Or.inr (by decide), by decide⟩,
   CaffeMallocHost_standard_path false rt_cpu_ok 0 1024 true (Or.inr (by decide)) (by decide)⟩

/-- C10: on the standard-allocation path (`CPU_ONLY` defined, or
`Caffe::mode()` not GPU) `CaffeMallocHost` ends fatally whenever `malloc`
returns null, for every size, zero included; when it does, `*ptr` holds null
and `*use_cuda` holds false. -/
theorem CaffeMallocHost_null_fatal_any_size (CPU_ONLY : Bool) (rt : Runtime)
    (ptr size : Nat) (use_cuda : Bool)
    (hctx : CPU_ONLY = true ∨ rt.mode ≠ Brew.GPU) (hnull : rt.malloc size = NULL) :
    (CaffeMallocHost CPU_ONLY rt ptr size use_cuda).status = Status.fatal ∧
    (CaffeMallocHost CPU_ONLY rt ptr size use_cuda).ptr = NULL ∧
    (CaffeMallocHost CPU_ONLY rt ptr size use_cuda).use_cuda = false := by
  have hg : ¬ (CPU_ONLY = false ∧ rt.mode = Brew.GPU) := by
    rintro ⟨h1, h2⟩
    rcases hctx with h | h
    · simp [h1] at h
    · exact h h2
  rw [CaffeMallocHost_std CPU_ONLY rt ptr size use_cuda hg]
  exact ⟨(CHECK_fatal_iff _).mpr hnull, hnull, rfl⟩

/-- C10, evaluated for a request of size zero answered by a null pointer, with
`*ptr` and `*use_cuda` holding 4096 and true before the call. -/
theorem CaffeMallocHost_null_fatal_any_size_witness :
    ((true = true ∨ rt_cpu_null.mode ≠ Brew.GPU) ∧ rt_cpu_null.malloc 0 = NULL) ∧
    ((CaffeMallocHost true rt_cpu_null 4096 0 true).status = Status.fatal ∧
    (CaffeMallocHost true rt_cpu_null 4096 0 true).ptr = NULL ∧
    (CaffeMallocHost true rt_cpu_null 4096 0 true).use_cuda = false) :=
  ⟨⟨Or.inl rfl, rfl⟩,
   CaffeMallocHost_null_fatal_any_size true rt_cpu_null 4096 0 true (Or.inl rfl) rfl⟩

/-! ## The accessors -/

/-- C3: for every buffer whose state is HEAD_AT_GPU, `async_gpu_push` ends
fatally: it does not return normally, the data members (the state among them)
are what they were, and the world is what it was (no allocation, no copy). -/
theorem async_gpu_push_at_gpu_fatal (rt : Runtime) (stream : Nat) (m : SyncedMemory)
    (w : World) (h : m.head_ = SyncedHead.HEAD_AT_GPU) :
    (async_gpu_push rt stream m w).status = Status.fatal ∧
    (async_gpu_push rt stream m w).status ≠ Status.returned ∧
    (async_gpu_push rt stream m w).mem = m ∧
    (async_gpu_push rt stream m w).mem.head = SyncedHead.HEAD_AT_GPU ∧
    (async_gpu_push rt stream m w).world = w := by
  unfold async_gpu_push
  by_cases hm : rt.mode = Brew.GPU
  · simp [hm, h, SyncedMemory.head]
  · simp [hm, h, SyncedMemory.head]

/-- C3, evaluated with an active accelerator context on a buffer whose device
copy is authoritative. -/
theorem async_gpu_push_at_gpu_fatal_witness :
    mem_at_gpu.head_ = SyncedHead.HEAD_AT_GPU ∧
    ((async_gpu_push rt_gpu_ok 0 mem_at_gpu world0).status = Status.fatal ∧
    (async_gpu_push rt_gpu_ok 0 mem_at_gpu world0).status ≠ Status.returned ∧
    (async_gpu_push rt_gpu_ok 0 mem_at_gpu world0).mem = mem_at_gpu ∧
    (async_gpu_push rt_gpu_ok 0 mem_at_gpu world0).mem.head = SyncedHead.HEAD_AT_GPU ∧
    (async_gpu_push rt_gpu_ok 0 mem_at_gpu world0).world = world0) :=
  ⟨rfl, async_gpu_push_at_gpu_fatal rt_gpu_ok 0 mem_at_gpu world0 rfl⟩

end caffe
